import Mathlib

/-!
# Orchestration core of `window.cpp` (class `Window`)

A shallow embedding of the event handlers of `Window` in `src/window.cpp`.

* Objects allocated with `new` live in arenas: a `PrintJob*` is an index into
  `Window.jobs`, a `PrintManager*` is the serial number of the allocation.
* Calls made on collaborators (`shepherd`, `printManager`, `printTab`,
  `QMessageBox`, the `printJobChanged` signal, the close event) are recorded,
  in program order, in `Window.trace`.
* The enablement setters of the tabs (`setSliceButtonEnabled`,
  `setPrintButtonEnabled`, `setStopButtonEnabled`) and `tabs->setCurrentIndex`
  write the corresponding fields of the state.
* Values of type `double` are only ever copied or passed on by this file, never
  computed with; they are represented by the rational number their literal
  denotes.
* `debug( ... )` and the `fprintf( stderr, ... )` dump write diagnostics only
  and are left out.
-/

namespace Fstl

/-! ## Data model -/

/-- The `PrintJob` record: the seven fields read by the dump in
`Window::printTab_printButtonClicked` (lines 223-229), in that order. -/
structure PrintJob where
  modelFileName : String
  slicedSvgFileName : String
  pngFilesPath : String
  layerCount : Int
  layerThickness : Int
  exposureTime : ℚ
  powerLevel : Int
deriving DecidableEq, Repr

/-- Modelled from the spec: the declaration of `PrintJob` (`printjob.h`) is not
among the sources, so the value of a newly constructed record (`new PrintJob`)
is taken from the spec, which calls it "empty": no file names and zero for
every number. -/
def PrintJob.new : PrintJob :=
  { modelFileName := "", slicedSvgFileName := "", pngFilesPath := "",
    layerCount := 0, layerThickness := 0, exposureTime := 0, powerLevel := 0 }

/-- The anonymous enumeration of `class TabIndex` (lines 18-27). -/
def TabIndex.Select : Nat := 0

/-- Second tab. -/
def TabIndex.Prepare : Nat := 1

/-- Third tab. -/
def TabIndex.Calibrate : Nat := 2

/-- Fourth tab. -/
def TabIndex.Print : Nat := 3

/-- Fifth tab. -/
def TabIndex.Status : Nat := 4

/-- The two completion signals of `Shepherd` that `Window` subscribes to. -/
inductive ShepherdSignal where
  | action_moveToComplete
  | action_moveComplete
deriving DecidableEq, Repr

/-- The five completion slots of `Window`. -/
inductive Slot where
  | shepherd_adjustBedHeightMoveToComplete
  | shepherd_retractBuildPlatformMoveToComplete
  | shepherd_extendBuildPlatformMoveToComplete
  | shepherd_moveBuildPlatformUpMoveComplete
  | shepherd_moveBuildPlatformDownMoveComplete
deriving DecidableEq, Repr

/-- The calls `Window` makes on its collaborators. `printTab_moveBuildPlatformDownComplete`
is the notification the claims name for the move-down operation; no handler of
`window.cpp` calls it. -/
inductive Effect where
  | shepherd_doMoveTo (position : ℚ)
  | shepherd_doMove (delta : ℚ)
  | shepherd_doSend (cmd : String)
  | shepherd_doTerminate
  | printManager_print (pm : Nat) (job : Nat)
  | printManager_abort (pm : Nat)
  | printManager_terminate (pm : Nat)
  | printManager_deleteLater (pm : Nat)
  | printJobChanged (job : Nat)
  | QMessageBox_critical (text : String)
  | printTab_adjustBedHeightComplete (success : Bool)
  | printTab_retractBuildPlatformComplete (success : Bool)
  | printTab_extendBuildPlatformComplete (success : Bool)
  | printTab_moveBuildPlatformUpComplete (success : Bool)
  | printTab_moveBuildPlatformDownComplete (success : Bool)
  | event_accept
  | dumpObjectInfo
  | dumpObjectTree
deriving DecidableEq, Repr

/-- The state of the orchestrator and of the controls it drives. -/
structure Window where
  /-- Arena of `PrintJob` objects; `new PrintJob` appends. -/
  jobs : List PrintJob
  /-- The member `printJob`: address of the live record. -/
  printJob : Nat
  /-- The member `printManager` (`nullptr` is `none`). -/
  printManager : Option Nat
  /-- Number of `PrintManager` objects constructed so far. -/
  printManagersMade : Nat
  /-- Value of `tabs->currentIndex( )`. -/
  currentIndex : Nat
  /-- Enablement of the slice button of `prepareTab`. -/
  sliceButtonEnabled : Bool
  /-- Enablement of the print button of `printTab`. -/
  printButtonEnabled : Bool
  /-- Enablement of the stop button of `statusTab`. -/
  stopButtonEnabled : Bool
  /-- Connections from `shepherd` signals to slots of `this`, oldest first. -/
  connections : List (ShepherdSignal × Slot)
  /-- Calls made on collaborators so far, oldest first. -/
  trace : List Effect
deriving DecidableEq, Repr

/-- Record the call `e`. -/
def Window.emit (s : Window) (e : Effect) : Window :=
  { s with trace := s.trace ++ [e] }

/-- Read the object at address `a` (`*a`). -/
def Window.deref (s : Window) (a : Nat) : PrintJob :=
  s.jobs.getD a PrintJob.new

/-- The live record, `*printJob`. -/
def Window.liveJob (s : Window) : PrintJob :=
  s.deref s.printJob

/-- Modelled from the spec: the constructors of the tabs and the member
initialisers of `window.h` are not among the sources. The constructor
(lines 41-128) allocates one `PrintJob`, selects the first tab and makes no
connection to a completion signal; the start-actions and the abort-action are
taken to be disabled and no Job Executor exists at startup. -/
def Window.init : Window :=
  { jobs := [PrintJob.new], printJob := 0, printManager := none, printManagersMade := 0,
    currentIndex := TabIndex.Select, sliceButtonEnabled := false,
    printButtonEnabled := false, stopButtonEnabled := false,
    connections := [], trace := [] }

/-- The call `QObject::connect( shepherd, signal, this, slot )`: adds one
connection. -/
def Window.connect (s : Window) (sig : ShepherdSignal) (slot : Slot) : Window :=
  { s with connections := s.connections ++ [(sig, slot)] }

/-- The call `QObject::disconnect( shepherd, signal, this, slot )`: removes
every connection of that signal to that slot, and nothing else. -/
def Window.disconnect (s : Window) (sig : ShepherdSignal) (slot : Slot) : Window :=
  { s with connections := s.connections.filter (fun c => !decide (c = (sig, slot))) }

/-! ## Handlers, in source order -/

/-- Lines 135-142. -/
def closeEvent (s : Window) : Window :=
  let s1 := match s.printManager with
    | some pm => s.emit (.printManager_terminate pm)
    | none => s
  (s1.emit .shepherd_doTerminate).emit .event_accept

/-- Lines 156-167. -/
def selectTab_modelSelected (success : Bool) (fileName : String) (s : Window) : Window :=
  if success then
    let s1 := { s with sliceButtonEnabled := true }
    let s2 := { s1 with
      jobs := s1.jobs.set s1.printJob { s1.liveJob with modelFileName := fileName } }
    if s2.currentIndex = TabIndex.Select then
      { s2 with currentIndex := TabIndex.Prepare }
    else s2
  else
    { s with sliceButtonEnabled := false }

/-- Lines 169-173. -/
def prepareTab_sliceStarted (s : Window) : Window :=
  { s with sliceButtonEnabled := false, printButtonEnabled := false }

/-- Lines 175-180. -/
def prepareTab_sliceComplete (success : Bool) (s : Window) : Window :=
  if !success then s else s

/-- Lines 182-184. -/
def prepareTab_renderStarted (s : Window) : Window := s

/-- Lines 186-197. -/
def prepareTab_renderComplete (success : Bool) (s : Window) : Window :=
  if !success then s
  else
    let s1 := { s with sliceButtonEnabled := true, printButtonEnabled := true }
    if s1.currentIndex = TabIndex.Prepare then
      { s1 with currentIndex := TabIndex.Print }
    else s1

/-- Lines 199-202. -/
def calibrationTab_calibrationStarted (s : Window) : Window :=
  { s with printButtonEnabled := false }

/-- Lines 204-207. -/
def calibrationTab_calibrationComplete (success : Bool) (s : Window) : Window :=
  { s with printButtonEnabled := success }

/-- Lines 209-247. The four connections of the new `PrintManager` lead to
`statusTab` and do not touch the state of `Window`. -/
def printTab_printButtonClicked (s : Window) : Window :=
  let s1 := { s with currentIndex := TabIndex.Status }
  -- PrintJob* newJob = new PrintJob;
  let newJob := s1.jobs.length
  let s2 := { s1 with jobs := s1.jobs ++ [PrintJob.new] }
  -- *newJob = *printJob;
  let s3 := { s2 with jobs := s2.jobs.set newJob s2.liveJob }
  -- printManager = new PrintManager( shepherd, this );
  let pm := s3.printManagersMade
  let s4 := { s3 with printManager := some pm, printManagersMade := pm + 1 }
  -- printManager->print( printJob );
  let s5 := s4.emit (.printManager_print pm s4.printJob)
  -- printJob = newJob; emit printJobChanged( printJob );
  let s6 := { s5 with printJob := newJob }
  let s7 := s6.emit (.printJobChanged s6.printJob)
  { s7 with printButtonEnabled := false, stopButtonEnabled := true }

/-- Lines 249-254. -/
def printTab_adjustBedHeight (newHeight : ℚ) (s : Window) : Window :=
  (s.connect .action_moveToComplete .shepherd_adjustBedHeightMoveToComplete).emit
    (.shepherd_doMoveTo newHeight)

/-- Lines 256-270. -/
def shepherd_adjustBedHeightMoveToComplete (success : Bool) (s : Window) : Window :=
  let s1 := s.disconnect .action_moveToComplete .shepherd_adjustBedHeightMoveToComplete
  let s2 :=
    if !success then
      s1.emit (.QMessageBox_critical "<b>Error:</b><br>Move to new bed height position failed.")
    else
      s1.emit (.shepherd_doSend "G92 X0")
  s2.emit (.printTab_adjustBedHeightComplete success)

/-- Lines 272-277. -/
def printTab_retractBuildPlatform (s : Window) : Window :=
  (s.connect .action_moveToComplete .shepherd_retractBuildPlatformMoveToComplete).emit
    (.shepherd_doMoveTo 50)

/-- Lines 279-291. -/
def shepherd_retractBuildPlatformMoveToComplete (success : Bool) (s : Window) : Window :=
  let s1 := s.disconnect .action_moveToComplete .shepherd_retractBuildPlatformMoveToComplete
  let s2 :=
    if !success then
      s1.emit (.QMessageBox_critical "<b>Error:</b><br>Retraction of build platform failed.")
    else s1
  s2.emit (.printTab_retractBuildPlatformComplete success)

/-- Lines 293-298. -/
def printTab_extendBuildPlatform (s : Window) : Window :=
  (s.connect .action_moveToComplete .shepherd_extendBuildPlatformMoveToComplete).emit
    (.shepherd_doMoveTo (1 / 10))

/-- Lines 300-312. -/
def shepherd_extendBuildPlatformMoveToComplete (success : Bool) (s : Window) : Window :=
  let s1 := s.disconnect .action_moveToComplete .shepherd_extendBuildPlatformMoveToComplete
  let s2 :=
    if !success then
      s1.emit (.QMessageBox_critical "<b>Error:</b><br>Extension of build platform failed.")
    else s1
  s2.emit (.printTab_extendBuildPlatformComplete success)

/-- Lines 314-319. -/
def printTab_moveBuildPlatformUp (s : Window) : Window :=
  (s.connect .action_moveComplete .shepherd_moveBuildPlatformUpMoveComplete).emit
    (.shepherd_doMove (1 / 10))

/-- Lines 321-333. The `disconnect` of line 323 names `action_moveToComplete`. -/
def shepherd_moveBuildPlatformUpMoveComplete (success : Bool) (s : Window) : Window :=
  let s1 := s.disconnect .action_moveToComplete .shepherd_moveBuildPlatformUpMoveComplete
  let s2 :=
    if !success then
      s1.emit (.QMessageBox_critical "<b>Error:</b><br>Moving build platform up failed.")
    else s1
  s2.emit (.printTab_moveBuildPlatformUpComplete success)

/-- Lines 335-340. -/
def printTab_moveBuildPlatformDown (s : Window) : Window :=
  (s.connect .action_moveComplete .shepherd_moveBuildPlatformDownMoveComplete).emit
    (.shepherd_doMove (-(1 / 10)))

/-- Lines 342-354. The `disconnect` of line 344 names `action_moveToComplete`,
and line 353 calls `moveBuildPlatformUpComplete`. -/
def shepherd_moveBuildPlatformDownMoveComplete (success : Bool) (s : Window) : Window :=
  let s1 := s.disconnect .action_moveToComplete .shepherd_moveBuildPlatformDownMoveComplete
  let s2 :=
    if !success then
      s1.emit (.QMessageBox_critical "<b>Error:</b><br>Moving build platform down failed.")
    else s1
  s2.emit (.printTab_moveBuildPlatformUpComplete success)

/-- Lines 356-362. -/
def statusTab_stopButtonClicked (s : Window) : Window :=
  let s1 := { s with stopButtonEnabled := false }
  match s1.printManager with
  | some pm => s1.emit (.printManager_abort pm)
  | none => s1

/-- Lines 364-371. -/
def statusTab_cleanUpAfterPrint (s : Window) : Window :=
  let s1 := match s.printManager with
    | some pm => { s.emit (.printManager_deleteLater pm) with printManager := none }
    | none => s
  { s1 with stopButtonEnabled := false }

/-- The call `close( )` of `QWidget`: delivers a close event to `closeEvent`. -/
def close (s : Window) : Window := closeEvent s

/-- The signal numbers of `signalList` (lines 29-37), with their Linux values. -/
def SIGHUP : Int := 1

/-- Interrupt. -/
def SIGINT : Int := 2

/-- Quit. -/
def SIGQUIT : Int := 3

/-- Terminate. -/
def SIGTERM : Int := 15

/-- Diagnostic signal of the debug build. -/
def SIGUSR1 : Int := 10

/-- Lines 373-390; `debugBuild` is whether `_DEBUG` is defined. -/
def signalHandler_signalReceived (debugBuild : Bool) (signalNumber : Int) (s : Window) : Window :=
  if debugBuild then
    if SIGUSR1 = signalNumber then
      (s.emit .dumpObjectInfo).emit .dumpObjectTree
    else close s
  else close s

/-! ## Delivery of signals and sequences of events -/

/-- The slot function behind each `Slot`. -/
def runSlot : Slot → Bool → Window → Window
  | .shepherd_adjustBedHeightMoveToComplete => shepherd_adjustBedHeightMoveToComplete
  | .shepherd_retractBuildPlatformMoveToComplete => shepherd_retractBuildPlatformMoveToComplete
  | .shepherd_extendBuildPlatformMoveToComplete => shepherd_extendBuildPlatformMoveToComplete
  | .shepherd_moveBuildPlatformUpMoveComplete => shepherd_moveBuildPlatformUpMoveComplete
  | .shepherd_moveBuildPlatformDownMoveComplete => shepherd_moveBuildPlatformDownMoveComplete

/-- The `shepherd` emits `sig( success )`: every connection of `sig` that
exists when the emission starts is visited, oldest first, and its slot is
called unless the connection has been removed in the meantime. -/
def shepherd_emits (sig : ShepherdSignal) (success : Bool) (s : Window) : Window :=
  (s.connections.filter (fun c => decide (c.1 = sig))).foldl
    (fun cur c => if c ∈ cur.connections then runSlot c.2 success cur else cur) s

/-- The calls a handler adds to the trace of `s`. -/
def issued (handler : Window → Window) (s : Window) : List Effect :=
  (handler s).trace.drop s.trace.length

/-- The pointer `printJob` refers to an allocated record. -/
def Window.valid (s : Window) : Prop := s.printJob < s.jobs.length

instance (s : Window) : Decidable s.valid := by
  unfold Window.valid
  exact inferInstance

/-- The stage events that bear on the Print start-action and that the
constructor connects to a handler: `sliceStarted` (line 83), `renderComplete`
(line 86), `printButtonClicked` (line 96) and `printComplete` (line 112). The
constructor (lines 41-128) connects no signal to
`calibrationTab_calibrationStarted` or `calibrationTab_calibrationComplete`,
so calibration events are not among them. -/
inductive StageEvent where
  | sliceStarted
  | renderComplete (success : Bool)
  | printStart
  | printComplete
deriving DecidableEq, Repr

/-- The handler the constructor connects each stage event to (lines 83, 86, 96
and 112). -/
def stageStep (s : Window) : StageEvent → Window
  | .sliceStarted => prepareTab_sliceStarted s
  | .renderComplete b => prepareTab_renderComplete b s
  | .printStart => printTab_printButtonClicked s
  | .printComplete => statusTab_cleanUpAfterPrint s

/-- The state after a sequence of stage events. -/
def runStage (s : Window) (evs : List StageEvent) : Window :=
  evs.foldl stageStep s

/-- Outcome carried by a terminal event; of the connected events only render
complete is one. -/
def StageEvent.terminalOutcome : StageEvent → Option Bool
  | .renderComplete b => some b
  | _ => none

/-- The claim's reading of a history: the most recent terminal event was a
success (false when there is none). -/
def lastTerminalSucceeded (evs : List StageEvent) : Bool :=
  (evs.reverse.findSome? StageEvent.terminalOutcome).getD false

/-- The effect of an event on the print button, as the handlers have it:
`some b` when the handler calls `setPrintButtonEnabled( b )`, `none` when it
leaves the button alone. -/
def StageEvent.printButtonWrite : StageEvent → Option Bool
  | .sliceStarted => some false
  | .renderComplete true => some true
  | .renderComplete false => none
  | .printStart => some false
  | .printComplete => none

/-- The most recent call of `setPrintButtonEnabled` in a history, if any. -/
def lastPrintButtonWrite (evs : List StageEvent) : Option Bool :=
  evs.reverse.findSome? StageEvent.printButtonWrite

/-- The enablement of the Print start-action that claim C2 predicts after the
history `evs` applied to the initial state: the most recent terminal event was
a success and no Job Executor exists. -/
def claimedPrintEnabled (evs : List StageEvent) : Bool :=
  lastTerminalSucceeded evs && (runStage Window.init evs).printManager.isNone

/-- No request that completes with `action_moveToComplete` is pending: no
connection of that signal exists. -/
def Window.noMoveToPending (s : Window) : Prop :=
  ∀ c ∈ s.connections, c.1 ≠ ShepherdSignal.action_moveToComplete

instance (s : Window) : Decidable s.noMoveToPending := by
  unfold Window.noMoveToPending
  exact inferInstance

/-- The two events of the Status collaborator. -/
inductive StatusEvent where
  | stopRequested
  | printComplete
deriving DecidableEq, Repr

/-- The handler each Status event is connected to (lines 111-112). -/
def statusStep (s : Window) : StatusEvent → Window
  | .stopRequested => statusTab_stopButtonClicked s
  | .printComplete => statusTab_cleanUpAfterPrint s

/-- A write to one field of a record by a collaborator holding its address. -/
inductive JobUpdate where
  | modelFileName (v : String)
  | slicedSvgFileName (v : String)
  | pngFilesPath (v : String)
  | layerCount (v : Int)
  | layerThickness (v : Int)
  | exposureTime (v : ℚ)
  | powerLevel (v : Int)
deriving DecidableEq, Repr

/-- The record after the write. -/
def JobUpdate.apply : JobUpdate → PrintJob → PrintJob
  | .modelFileName v, j => { j with modelFileName := v }
  | .slicedSvgFileName v, j => { j with slicedSvgFileName := v }
  | .pngFilesPath v, j => { j with pngFilesPath := v }
  | .layerCount v, j => { j with layerCount := v }
  | .layerThickness v, j => { j with layerThickness := v }
  | .exposureTime v, j => { j with exposureTime := v }
  | .powerLevel v, j => { j with powerLevel := v }

/-- A collaborator writes through the pointer it was given by `setPrintJob`,
which is the current value of `printJob`. -/
def Window.updateLiveJob (u : JobUpdate) (s : Window) : Window :=
  { s with jobs := s.jobs.set s.printJob (u.apply s.liveJob) }

/-- Everything that can happen to a `Window`: a write to the live record by a
collaborator, or any one of the handlers being called, whether the constructor
connects a signal to it or not (it connects none to the two calibration
handlers). -/
inductive Event where
  | liveJobUpdated (u : JobUpdate)
  | modelSelected (success : Bool) (fileName : String)
  | sliceStarted
  | sliceComplete (success : Bool)
  | renderStarted
  | renderComplete (success : Bool)
  | calibrationStarted
  | calibrationComplete (success : Bool)
  | printButtonClicked
  | adjustBedHeight (newHeight : ℚ)
  | retractBuildPlatform
  | extendBuildPlatform
  | moveBuildPlatformUp
  | moveBuildPlatformDown
  | shepherdSignal (sig : ShepherdSignal) (success : Bool)
  | stopButtonClicked
  | printComplete
  | closeRequested
  | signalReceived (debugBuild : Bool) (signalNumber : Int)
deriving DecidableEq, Repr

/-- One step of the orchestrator: the write, or the handler called. -/
def step (s : Window) : Event → Window
  | .liveJobUpdated u => s.updateLiveJob u
  | .modelSelected b f => selectTab_modelSelected b f s
  | .sliceStarted => prepareTab_sliceStarted s
  | .sliceComplete b => prepareTab_sliceComplete b s
  | .renderStarted => prepareTab_renderStarted s
  | .renderComplete b => prepareTab_renderComplete b s
  | .calibrationStarted => calibrationTab_calibrationStarted s
  | .calibrationComplete b => calibrationTab_calibrationComplete b s
  | .printButtonClicked => printTab_printButtonClicked s
  | .adjustBedHeight h => printTab_adjustBedHeight h s
  | .retractBuildPlatform => printTab_retractBuildPlatform s
  | .extendBuildPlatform => printTab_extendBuildPlatform s
  | .moveBuildPlatformUp => printTab_moveBuildPlatformUp s
  | .moveBuildPlatformDown => printTab_moveBuildPlatformDown s
  | .shepherdSignal sig b => shepherd_emits sig b s
  | .stopButtonClicked => statusTab_stopButtonClicked s
  | .printComplete => statusTab_cleanUpAfterPrint s
  | .closeRequested => close s
  | .signalReceived d n => signalHandler_signalReceived d n s

/-- The state after a sequence of events. -/
def run (s : Window) (evs : List Event) : Window :=
  evs.foldl step s

/-! ## Shutdown (C4) -/

/-- C4: the close handler issues a terminate request to the Job Executor
exactly when one exists, issues exactly one terminate request to the Device
Channel, every executor terminate request precedes the channel terminate
request, and the last thing it does is accept the close event. Each of the four
termination-class signals runs this same handler, in the debug build and in the
release build. -/
theorem closeEvent_terminates_executor_before_channel (s : Window) :
    (closeEvent s).trace = s.trace ++ issued closeEvent s ∧
    issued closeEvent s =
      (match s.printManager with
        | some pm => [Effect.printManager_terminate pm]
        | none => []) ++ [Effect.shepherd_doTerminate, Effect.event_accept] ∧
    (∀ pm, Effect.printManager_terminate pm ∈ issued closeEvent s ↔ s.printManager = some pm) ∧
    (issued closeEvent s).count Effect.shepherd_doTerminate = 1 ∧
    (∀ (pm i j : Nat), (issued closeEvent s)[i]? = some (Effect.printManager_terminate pm) →
      (issued closeEvent s)[j]? = some Effect.shepherd_doTerminate → i < j) ∧
    (issued closeEvent s).getLast? = some Effect.event_accept ∧
    (∀ debugBuild,
      signalHandler_signalReceived debugBuild SIGHUP s = closeEvent s ∧
      signalHandler_signalReceived debugBuild SIGINT s = closeEvent s ∧
      signalHandler_signalReceived debugBuild SIGQUIT s = closeEvent s ∧
      signalHandler_signalReceived debugBuild SIGTERM s = closeEvent s) := by
  refine ⟨?_, ?_, ?_, ?_, ?_, ?_, ?_⟩
  · cases h : s.printManager <;> simp [issued, closeEvent, Window.emit, h]
  · cases h : s.printManager <;> simp [issued, closeEvent, Window.emit, h]
  · intro pm
    cases h : s.printManager <;> simp [issued, closeEvent, Window.emit, h, eq_comm]
  · cases h : s.printManager <;> simp [issued, closeEvent, Window.emit, h]
  · intro pm i j
    cases h : s.printManager
    · rcases i with _ | _ | i <;> simp [issued, closeEvent, Window.emit, h]
    · rcases i with _ | _ | _ | i <;> rcases j with _ | _ | _ | j <;>
        simp [issued, closeEvent, Window.emit, h]
  · cases h : s.printManager <;> simp [issued, closeEvent, Window.emit, h]
  · intro debugBuild
    cases debugBuild <;>
      simp [signalHandler_signalReceived, close, SIGHUP, SIGINT, SIGQUIT, SIGTERM, SIGUSR1]

/-! ## Bed-height adjustment (C5) -/

/-- With no `moveTo` request pending, the completion signal delivered after a
bed-height request runs the bed-height completion slot once and nothing else. -/
theorem shepherd_emits_after_adjustBedHeight (h : ℚ) (success : Bool) (s : Window)
    (hs : s.noMoveToPending) :
    shepherd_emits ShepherdSignal.action_moveToComplete success (printTab_adjustBedHeight h s) =
      shepherd_adjustBedHeightMoveToComplete success (printTab_adjustBedHeight h s) := by
  have hf : s.connections.filter
      (fun c => decide (c.1 = ShepherdSignal.action_moveToComplete)) = [] := by
    rw [List.filter_eq_nil_iff]
    intro c hc
    simpa using hs c hc
  simp [shepherd_emits, printTab_adjustBedHeight, Window.connect, Window.emit, hf, runSlot]

/-- With no `moveTo` request pending, the bed-height completion slot leaves the
connections as they were before the request. -/
theorem adjustBedHeight_connections_restored (h : ℚ) (success : Bool) (s : Window)
    (hs : s.noMoveToPending) :
    (shepherd_adjustBedHeightMoveToComplete success (printTab_adjustBedHeight h s)).connections =
      s.connections := by
  have hf : s.connections.filter (fun c => !decide (c = (ShepherdSignal.action_moveToComplete,
      Slot.shepherd_adjustBedHeightMoveToComplete))) = s.connections := by
    rw [List.filter_eq_self]
    intro c hc
    have := hs c hc
    rcases c with ⟨c1, c2⟩
    simp only [Prod.mk.injEq, Bool.not_eq_true', decide_eq_false_iff_not, not_and]
    intro h1
    exact absurd h1 this
  cases success <;>
    simp [shepherd_adjustBedHeightMoveToComplete, printTab_adjustBedHeight, Window.connect,
      Window.disconnect, Window.emit, hf]

/-- C5: for every target height `h`, in every state with no `moveTo` request
pending, the request handler issues the single call `doMoveTo( h )` and adds
the one subscription of its completion slot. When the Device Channel then
delivers the completion with success, exactly one raw command `G92 X0` is sent,
no error box is shown and the Print collaborator is told once that the
adjustment succeeded; delivered with failure, one error box is shown, no raw
command is sent and the Print collaborator is told once that the adjustment
failed. Either way the subscription is gone afterwards, so a second request and
its completion again produce exactly these calls, once. -/
theorem adjustBedHeight_request_and_completion (h h2 : ℚ) (s : Window)
    (hs : s.noMoveToPending) :
    (printTab_adjustBedHeight h s).trace = s.trace ++ [Effect.shepherd_doMoveTo h] ∧
    issued (printTab_adjustBedHeight h) s = [Effect.shepherd_doMoveTo h] ∧
    (printTab_adjustBedHeight h s).connections = s.connections ++
      [(ShepherdSignal.action_moveToComplete, Slot.shepherd_adjustBedHeightMoveToComplete)] ∧
    issued (shepherd_emits ShepherdSignal.action_moveToComplete true)
        (printTab_adjustBedHeight h s) =
      [Effect.shepherd_doSend "G92 X0", Effect.printTab_adjustBedHeightComplete true] ∧
    issued (shepherd_emits ShepherdSignal.action_moveToComplete false)
        (printTab_adjustBedHeight h s) =
      [Effect.QMessageBox_critical "<b>Error:</b><br>Move to new bed height position failed.",
        Effect.printTab_adjustBedHeightComplete false] ∧
    (∀ success, (shepherd_emits ShepherdSignal.action_moveToComplete success
      (printTab_adjustBedHeight h s)).connections = s.connections) ∧
    (∀ success, issued (shepherd_emits ShepherdSignal.action_moveToComplete true)
        (printTab_adjustBedHeight h2 (shepherd_emits ShepherdSignal.action_moveToComplete success
          (printTab_adjustBedHeight h s))) =
      [Effect.shepherd_doSend "G92 X0", Effect.printTab_adjustBedHeightComplete true]) ∧
    (∀ success, issued (shepherd_emits ShepherdSignal.action_moveToComplete false)
        (printTab_adjustBedHeight h2 (shepherd_emits ShepherdSignal.action_moveToComplete success
          (printTab_adjustBedHeight h s))) =
      [Effect.QMessageBox_critical "<b>Error:</b><br>Move to new bed height position failed.",
        Effect.printTab_adjustBedHeightComplete false]) := by
  have hslot : ∀ (b : Bool) (x : ℚ) (u : Window),
      issued (shepherd_adjustBedHeightMoveToComplete b) (printTab_adjustBedHeight x u) =
        (if b then [Effect.shepherd_doSend "G92 X0"]
          else [Effect.QMessageBox_critical
            "<b>Error:</b><br>Move to new bed height position failed."]) ++
          [Effect.printTab_adjustBedHeightComplete b] := by
    intro b x u
    cases b <;>
      simp [issued, shepherd_adjustBedHeightMoveToComplete, printTab_adjustBedHeight,
        Window.emit, Window.connect, Window.disconnect]
  have hdeliver : ∀ (b : Bool) (x : ℚ) (u : Window), u.noMoveToPending →
      issued (shepherd_emits ShepherdSignal.action_moveToComplete b)
          (printTab_adjustBedHeight x u) =
        (if b then [Effect.shepherd_doSend "G92 X0"]
          else [Effect.QMessageBox_critical
            "<b>Error:</b><br>Move to new bed height position failed."]) ++
          [Effect.printTab_adjustBedHeightComplete b] := by
    intro b x u hu
    unfold issued
    rw [shepherd_emits_after_adjustBedHeight x b u hu]
    exact hslot b x u
  have hconn : ∀ success, (shepherd_emits ShepherdSignal.action_moveToComplete success
      (printTab_adjustBedHeight h s)).connections = s.connections := by
    intro success
    rw [shepherd_emits_after_adjustBedHeight h success s hs]
    exact adjustBedHeight_connections_restored h success s hs
  have hnext : ∀ success, (shepherd_emits ShepherdSignal.action_moveToComplete success
      (printTab_adjustBedHeight h s)).noMoveToPending := by
    intro success
    unfold Window.noMoveToPending
    rw [hconn success]
    exact hs
  refine ⟨?_, ?_, ?_, ?_, ?_, hconn, ?_, ?_⟩
  · simp [printTab_adjustBedHeight, Window.emit, Window.connect]
  · simp [issued, printTab_adjustBedHeight, Window.emit, Window.connect]
  · simp [printTab_adjustBedHeight, Window.emit, Window.connect]
  · simpa using hdeliver true h s hs
  · simpa using hdeliver false h s hs
  · intro success
    simpa using hdeliver true h2 _ (hnext success)
  · intro success
    simpa using hdeliver false h2 _ (hnext success)

/-- C5 at the target height 12.5 of the scenario, requested in the initial
state, where nothing is pending: the delivered success sends the one raw
command, and a second request at 3 after a failed first one does the same. -/
theorem adjustBedHeight_request_and_completion_witness :
    Window.init.noMoveToPending ∧
    issued (printTab_adjustBedHeight (25 / 2)) Window.init = [Effect.shepherd_doMoveTo (25 / 2)] ∧
    issued (shepherd_emits ShepherdSignal.action_moveToComplete true)
        (printTab_adjustBedHeight (25 / 2) Window.init) =
      [Effect.shepherd_doSend "G92 X0", Effect.printTab_adjustBedHeightComplete true] ∧
    issued (shepherd_emits ShepherdSignal.action_moveToComplete true)
        (printTab_adjustBedHeight 3 (shepherd_emits ShepherdSignal.action_moveToComplete false
          (printTab_adjustBedHeight (25 / 2) Window.init))) =
      [Effect.shepherd_doSend "G92 X0", Effect.printTab_adjustBedHeightComplete true] :=
  ⟨by decide,
    (adjustBedHeight_request_and_completion (25 / 2) 3 Window.init (by decide)).2.1,
    (adjustBedHeight_request_and_completion (25 / 2) 3 Window.init (by decide)).2.2.2.1,
    (adjustBedHeight_request_and_completion (25 / 2) 3 Window.init
      (by decide)).2.2.2.2.2.2.1 false⟩

/-! ## Completion notifications (C6) -/

/-- The completion handlers of adjust, retract, extend and move-up end with the
completion notification of their own operation, carrying the received flag. -/
theorem completion_notifies_own_operation (success : Bool) (s : Window) :
    (issued (shepherd_adjustBedHeightMoveToComplete success) s).getLast? =
      some (Effect.printTab_adjustBedHeightComplete success) ∧
    (issued (shepherd_retractBuildPlatformMoveToComplete success) s).getLast? =
      some (Effect.printTab_retractBuildPlatformComplete success) ∧
    (issued (shepherd_extendBuildPlatformMoveToComplete success) s).getLast? =
      some (Effect.printTab_extendBuildPlatformComplete success) ∧
    (issued (shepherd_moveBuildPlatformUpMoveComplete success) s).getLast? =
      some (Effect.printTab_moveBuildPlatformUpComplete success) := by
  cases success <;>
    simp [issued, shepherd_adjustBedHeightMoveToComplete,
      shepherd_retractBuildPlatformMoveToComplete, shepherd_extendBuildPlatformMoveToComplete,
      shepherd_moveBuildPlatformUpMoveComplete, Window.emit, Window.disconnect]

/-- C6 fails for the move-down operation: its completion handler, for either
outcome and in every state, calls the completion notification of the move-up
operation once and never the one of the move-down operation. -/
theorem moveBuildPlatformDown_completion_notifies_moveUp (success : Bool) (s : Window) :
    (issued (shepherd_moveBuildPlatformDownMoveComplete success) s).count
      (Effect.printTab_moveBuildPlatformUpComplete success) = 1 ∧
    (∀ b, Effect.printTab_moveBuildPlatformDownComplete b ∉
      issued (shepherd_moveBuildPlatformDownMoveComplete success) s) ∧
    issued (shepherd_moveBuildPlatformDownMoveComplete true) Window.init =
      [Effect.printTab_moveBuildPlatformUpComplete true] := by
  refine ⟨?_, ?_, ?_⟩
  · cases success <;>
      simp [issued, shepherd_moveBuildPlatformDownMoveComplete, Window.emit, Window.disconnect]
  · intro b
    cases success <;>
      simp [issued, shepherd_moveBuildPlatformDownMoveComplete, Window.emit, Window.disconnect]
  · rfl

/-! ## Stop and print complete (C8) -/

/-- Once no Job Executor exists and the abort-action is disabled, the two
Status events change nothing. -/
theorem statusStep_idle (s : Window) (e : StatusEvent)
    (hpm : s.printManager = none) (hstop : s.stopButtonEnabled = false) :
    statusStep s e = s := by
  cases s
  cases e <;> simp_all [statusStep, statusTab_stopButtonClicked, statusTab_cleanUpAfterPrint]

/-- A whole sequence of Status events changes nothing in such a state. -/
theorem statusStep_idle_run (later : List StatusEvent) (s : Window)
    (hpm : s.printManager = none) (hstop : s.stopButtonEnabled = false) :
    later.foldl statusStep s = s := by
  induction later with
  | nil => rfl
  | cons e es ih => simp [List.foldl, statusStep_idle s e hpm hstop, ih]

/-- C8: when a Job Executor `pm` exists, "stop requested" followed by "print
complete" issues one abort and then one release on `pm` and nothing else,
leaves no Job Executor and the abort-action disabled; any further sequence of
"stop requested" and "print complete" events leaves the state, and so the
trace, as it is: no abort and no release is issued again. -/
theorem stop_then_complete_releases_once (s : Window) (pm : Nat)
    (h : s.printManager = some pm) (later : List StatusEvent) :
    (statusTab_cleanUpAfterPrint (statusTab_stopButtonClicked s)).trace =
      s.trace ++ [Effect.printManager_abort pm, Effect.printManager_deleteLater pm] ∧
    (statusTab_cleanUpAfterPrint (statusTab_stopButtonClicked s)).printManager = none ∧
    (statusTab_cleanUpAfterPrint (statusTab_stopButtonClicked s)).stopButtonEnabled = false ∧
    later.foldl statusStep (statusTab_cleanUpAfterPrint (statusTab_stopButtonClicked s)) =
      statusTab_cleanUpAfterPrint (statusTab_stopButtonClicked s) ∧
    (later.foldl statusStep (statusTab_cleanUpAfterPrint (statusTab_stopButtonClicked s))).trace =
      s.trace ++ [Effect.printManager_abort pm, Effect.printManager_deleteLater pm] := by
  have h1 : (statusTab_cleanUpAfterPrint (statusTab_stopButtonClicked s)).trace =
      s.trace ++ [Effect.printManager_abort pm, Effect.printManager_deleteLater pm] := by
    simp [statusTab_cleanUpAfterPrint, statusTab_stopButtonClicked, Window.emit, h]
  have h2 : (statusTab_cleanUpAfterPrint (statusTab_stopButtonClicked s)).printManager = none := by
    simp [statusTab_cleanUpAfterPrint, statusTab_stopButtonClicked, Window.emit, h]
  have h3 : (statusTab_cleanUpAfterPrint (statusTab_stopButtonClicked s)).stopButtonEnabled
      = false := by
    simp [statusTab_cleanUpAfterPrint, statusTab_stopButtonClicked, Window.emit, h]
  have h4 := statusStep_idle_run later _ h2 h3
  exact ⟨h1, h2, h3, h4, by rw [h4, h1]⟩

/-- C8 on the state right after a print was started from the initial state,
followed by one more of each Status event. -/
theorem stop_then_complete_releases_once_witness :
    (printTab_printButtonClicked Window.init).printManager = some 0 ∧
    ([StatusEvent.stopRequested, StatusEvent.printComplete].foldl statusStep
      (statusTab_cleanUpAfterPrint (statusTab_stopButtonClicked
        (printTab_printButtonClicked Window.init)))).trace =
      (printTab_printButtonClicked Window.init).trace ++
        [Effect.printManager_abort 0, Effect.printManager_deleteLater 0] :=
  ⟨rfl, (stop_then_complete_releases_once (printTab_printButtonClicked Window.init) 0 rfl
    [StatusEvent.stopRequested, StatusEvent.printComplete]).2.2.2.2⟩

/-! ## Model selection (C9) -/

/-- Reading a record after a write to a valid address gives the written value. -/
theorem getD_set_self (l : List PrintJob) (a : Nat) (j d : PrintJob) (h : a < l.length) :
    (l.set a j).getD a d = j := by
  simp [List.getD_eq_getElem?_getD, List.getElem?_set_self, h]

/-- A write to one address leaves the record at any other address as it is. -/
theorem getD_set_other (l : List PrintJob) (a b : Nat) (j d : PrintJob) (h : a ≠ b) :
    (l.set a j).getD b d = l.getD b d := by
  simp [List.getD_eq_getElem?_getD, List.getElem?_set_ne h]

/-- C9: a successful selection of `f` enables the Preparation start-action and
sets the model identifier of the live record to `f`, every other field of the
live record and every other record staying as they were; the focus moves to
Preparing when it was on Selecting and stays where it was otherwise; the other
two enablements, the live pointer, the Job Executor, the subscriptions and the
trace are unchanged. -/
theorem modelSelected_success (f : String) (s : Window) (hv : s.valid) :
    (selectTab_modelSelected true f s).sliceButtonEnabled = true ∧
    (selectTab_modelSelected true f s).liveJob = { s.liveJob with modelFileName := f } ∧
    (selectTab_modelSelected true f s).currentIndex =
      (if s.currentIndex = TabIndex.Select then TabIndex.Prepare else s.currentIndex) ∧
    (selectTab_modelSelected true f s).printButtonEnabled = s.printButtonEnabled ∧
    (selectTab_modelSelected true f s).stopButtonEnabled = s.stopButtonEnabled ∧
    (selectTab_modelSelected true f s).printJob = s.printJob ∧
    (∀ a, a ≠ s.printJob → (selectTab_modelSelected true f s).deref a = s.deref a) ∧
    (selectTab_modelSelected true f s).printManager = s.printManager ∧
    (selectTab_modelSelected true f s).connections = s.connections ∧
    (selectTab_modelSelected true f s).trace = s.trace := by
  unfold Window.valid at hv
  have ej : (selectTab_modelSelected true f s).jobs =
      s.jobs.set s.printJob { s.liveJob with modelFileName := f } := by
    simp only [selectTab_modelSelected]; split_ifs <;> rfl
  have ep : (selectTab_modelSelected true f s).printJob = s.printJob := by
    simp only [selectTab_modelSelected]; split_ifs <;> rfl
  refine ⟨?_, ?_, ?_, ?_, ?_, ep, ?_, ?_, ?_, ?_⟩
  · simp only [selectTab_modelSelected]; split_ifs <;> rfl
  · show (selectTab_modelSelected true f s).jobs.getD
      (selectTab_modelSelected true f s).printJob PrintJob.new = _
    rw [ej, ep]
    exact getD_set_self _ _ _ _ hv
  · simp only [selectTab_modelSelected]; split_ifs <;> simp_all
  · simp only [selectTab_modelSelected]; split_ifs <;> rfl
  · simp only [selectTab_modelSelected]; split_ifs <;> rfl
  · intro a ha
    show (selectTab_modelSelected true f s).jobs.getD a PrintJob.new = s.jobs.getD a PrintJob.new
    rw [ej]
    exact getD_set_other _ _ _ _ _ (Ne.symm ha)
  · simp only [selectTab_modelSelected]; split_ifs <;> rfl
  · simp only [selectTab_modelSelected]; split_ifs <;> rfl
  · simp only [selectTab_modelSelected]; split_ifs <;> rfl

/-- C9 for the file name of the scenario, selected in the initial state, where
the focus is on Selecting. -/
theorem modelSelected_success_witness :
    Window.init.valid ∧
    (selectTab_modelSelected true "vase.stl" Window.init).sliceButtonEnabled = true ∧
    (selectTab_modelSelected true "vase.stl" Window.init).liveJob =
      { Window.init.liveJob with modelFileName := "vase.stl" } ∧
    (selectTab_modelSelected true "vase.stl" Window.init).currentIndex =
      (if Window.init.currentIndex = TabIndex.Select then TabIndex.Prepare
        else Window.init.currentIndex) :=
  ⟨by decide,
    (modelSelected_success "vase.stl" Window.init (by decide)).1,
    (modelSelected_success "vase.stl" Window.init (by decide)).2.1,
    (modelSelected_success "vase.stl" Window.init (by decide)).2.2.1⟩

/-! ## Render failure (C10) -/

/-- C10 as stated fails: in the state reached from the initial state by a
successful selection, "slice started" and a successful render, both
start-actions are enabled, and a render-complete failure leaves them enabled. -/
theorem renderComplete_failure_controls_enabled :
    (prepareTab_renderComplete false
      (run Window.init [Event.modelSelected true "vase.stl", Event.sliceStarted,
        Event.renderComplete true])).sliceButtonEnabled = true ∧
    (prepareTab_renderComplete false
      (run Window.init [Event.modelSelected true "vase.stl", Event.sliceStarted,
        Event.renderComplete true])).printButtonEnabled = true := by
  decide

/-- C10, amended: a render-complete failure changes nothing at all, so no error
box is shown, the focus stays where it was, and each start-action keeps its
enablement; right after "slice started" both start-actions are disabled and
remain so. -/
theorem renderComplete_failure_changes_nothing (s : Window) :
    prepareTab_renderComplete false s = s ∧
    issued (prepareTab_renderComplete false) s = [] ∧
    (prepareTab_renderComplete false s).currentIndex = s.currentIndex ∧
    (prepareTab_renderComplete false s).sliceButtonEnabled = s.sliceButtonEnabled ∧
    (prepareTab_renderComplete false s).printButtonEnabled = s.printButtonEnabled ∧
    (prepareTab_renderComplete false (prepareTab_sliceStarted s)).sliceButtonEnabled = false ∧
    (prepareTab_renderComplete false (prepareTab_sliceStarted s)).printButtonEnabled = false ∧
    (prepareTab_renderComplete false (prepareTab_sliceStarted s)).currentIndex =
      s.currentIndex := by
  simp [prepareTab_renderComplete, prepareTab_sliceStarted, issued]

/-! ## Print start: the two records (C1, C7) -/

/-- The arena after print start: one record appended, holding a copy of the
live record. -/
theorem printButtonClicked_jobs (s : Window) :
    (printTab_printButtonClicked s).jobs = (s.jobs ++ [PrintJob.new]).set s.jobs.length
      ((s.jobs ++ [PrintJob.new]).getD s.printJob PrintJob.new) := rfl

/-- The live pointer after print start is the address of the appended record. -/
theorem printButtonClicked_printJob (s : Window) :
    (printTab_printButtonClicked s).printJob = s.jobs.length := rfl

/-- Reading a valid address is not affected by appending to the arena. -/
theorem getD_append_valid (l m : List PrintJob) (a : Nat) (d : PrintJob) (h : a < l.length) :
    (l ++ m).getD a d = l.getD a d := by
  simp [List.getD_eq_getElem?_getD, List.getElem?_append_left h]

/-- C1 as stated fails: with layer count 42 and exposure time 8 in the live
record, the live record after print start still has layer count 42 and
exposure time 8; it is not equal to a newly constructed record. Print starts
from live records that differ give live records that differ, so no single
value of a newly constructed record fits them all. -/
theorem printButtonClicked_live_record_not_empty :
    (printTab_printButtonClicked (run Window.init
      [Event.liveJobUpdated (JobUpdate.layerCount 42),
        Event.liveJobUpdated (JobUpdate.exposureTime 8)])).liveJob.layerCount = 42 ∧
    (printTab_printButtonClicked (run Window.init
      [Event.liveJobUpdated (JobUpdate.layerCount 42),
        Event.liveJobUpdated (JobUpdate.exposureTime 8)])).liveJob.exposureTime = 8 ∧
    (printTab_printButtonClicked (run Window.init
      [Event.liveJobUpdated (JobUpdate.layerCount 42),
        Event.liveJobUpdated (JobUpdate.exposureTime 8)])).liveJob ≠ PrintJob.new ∧
    (printTab_printButtonClicked (run Window.init
      [Event.liveJobUpdated (JobUpdate.layerCount 42),
        Event.liveJobUpdated (JobUpdate.exposureTime 8)])).liveJob ≠
      (printTab_printButtonClicked (run Window.init
        [Event.liveJobUpdated (JobUpdate.layerCount 10)])).liveJob := by
  decide

/-- C1, amended: after print start the live record is a newly allocated record
(its address was not in use before), a different object from the one handed to
the Job Executor by `print`, and every field of it equals that of the live
record before the handler (a copy, not an empty record); the record broadcast
by `printJobChanged` is that new live record. -/
theorem printButtonClicked_live_record_is_new_copy (s : Window) (hv : s.valid) :
    issued printTab_printButtonClicked s =
      [Effect.printManager_print s.printManagersMade s.printJob,
        Effect.printJobChanged (printTab_printButtonClicked s).printJob] ∧
    (printTab_printButtonClicked s).printJob = s.jobs.length ∧
    (printTab_printButtonClicked s).valid ∧
    (printTab_printButtonClicked s).printJob ≠ s.printJob ∧
    (printTab_printButtonClicked s).liveJob = s.liveJob := by
  unfold Window.valid at hv
  refine ⟨?_, rfl, ?_, ?_, ?_⟩
  · simp [issued, printTab_printButtonClicked, Window.emit]
  · simp [Window.valid, printButtonClicked_jobs, printButtonClicked_printJob]
  · rw [printButtonClicked_printJob]; omega
  · show (printTab_printButtonClicked s).jobs.getD (printTab_printButtonClicked s).printJob
      PrintJob.new = s.jobs.getD s.printJob PrintJob.new
    rw [printButtonClicked_jobs, printButtonClicked_printJob,
      getD_set_self _ _ _ _ (by simp), getD_append_valid _ _ _ _ hv]

/-- C1, amended, on a live record with model `vase.stl`. -/
theorem printButtonClicked_live_record_is_new_copy_witness :
    (selectTab_modelSelected true "vase.stl" Window.init).valid ∧
    (printTab_printButtonClicked (selectTab_modelSelected true "vase.stl" Window.init)).printJob ≠
      (selectTab_modelSelected true "vase.stl" Window.init).printJob ∧
    (printTab_printButtonClicked (selectTab_modelSelected true "vase.stl" Window.init)).liveJob =
      (selectTab_modelSelected true "vase.stl" Window.init).liveJob :=
  ⟨by decide,
    (printButtonClicked_live_record_is_new_copy
      (selectTab_modelSelected true "vase.stl" Window.init) (by decide)).2.2.2.1,
    (printButtonClicked_live_record_is_new_copy
      (selectTab_modelSelected true "vase.stl" Window.init) (by decide)).2.2.2.2⟩

/-- No completion slot touches the arena or the live pointer. -/
theorem runSlot_jobs (c : Slot) (b : Bool) (s : Window) :
    (runSlot c b s).jobs = s.jobs ∧ (runSlot c b s).printJob = s.printJob := by
  cases c <;> cases b <;> exact ⟨rfl, rfl⟩

/-- Delivering a signal of the `shepherd` touches neither the arena nor the
live pointer. -/
theorem shepherd_emits_jobs (sig : ShepherdSignal) (b : Bool) (s : Window) :
    (shepherd_emits sig b s).jobs = s.jobs ∧ (shepherd_emits sig b s).printJob = s.printJob := by
  unfold shepherd_emits
  generalize s.connections.filter (fun c => decide (c.1 = sig)) = l
  induction l generalizing s with
  | nil => exact ⟨rfl, rfl⟩
  | cons c cs ih =>
    simp only [List.foldl_cons]
    split_ifs
    · obtain ⟨h1, h2⟩ := ih (runSlot c.2 b s)
      obtain ⟨h3, h4⟩ := runSlot_jobs c.2 b s
      exact ⟨h1.trans h3, h2.trans h4⟩
    · exact ih s

/-- One step keeps a record that is allocated and is not the live one: it
stays allocated, stays different from the live one, and keeps its contents. -/
theorem step_frames_record (a : Nat) (s : Window) (e : Event)
    (ha : a < s.jobs.length) (hne : s.printJob ≠ a) :
    a < (step s e).jobs.length ∧ (step s e).printJob ≠ a ∧ (step s e).deref a = s.deref a := by
  cases e with
  | liveJobUpdated u =>
    refine ⟨by simpa [step, Window.updateLiveJob] using ha, hne, ?_⟩
    exact getD_set_other _ _ _ _ _ hne
  | modelSelected b f =>
    cases b
    · exact ⟨ha, hne, rfl⟩
    · have ej : (selectTab_modelSelected true f s).jobs =
          s.jobs.set s.printJob { s.liveJob with modelFileName := f } := by
        simp only [selectTab_modelSelected]; split_ifs <;> rfl
      have ep : (selectTab_modelSelected true f s).printJob = s.printJob := by
        simp only [selectTab_modelSelected]; split_ifs <;> rfl
      refine ⟨?_, ?_, ?_⟩
      · show a < (selectTab_modelSelected true f s).jobs.length
        rw [ej]; simpa using ha
      · show (selectTab_modelSelected true f s).printJob ≠ a
        rw [ep]; exact hne
      · show (selectTab_modelSelected true f s).jobs.getD a PrintJob.new = _
        rw [ej]; exact getD_set_other _ _ _ _ _ hne
  | printButtonClicked =>
    refine ⟨?_, ?_, ?_⟩
    · show a < (printTab_printButtonClicked s).jobs.length
      rw [printButtonClicked_jobs]; simp; omega
    · show (printTab_printButtonClicked s).printJob ≠ a
      rw [printButtonClicked_printJob]; omega
    · show (printTab_printButtonClicked s).jobs.getD a PrintJob.new = s.jobs.getD a PrintJob.new
      rw [printButtonClicked_jobs, getD_set_other _ _ _ _ _ (by omega),
        getD_append_valid _ _ _ _ ha]
  | shepherdSignal sig b =>
    obtain ⟨h1, h2⟩ := shepherd_emits_jobs sig b s
    refine ⟨?_, ?_, ?_⟩
    · show a < (shepherd_emits sig b s).jobs.length
      rw [h1]; exact ha
    · show (shepherd_emits sig b s).printJob ≠ a
      rw [h2]; exact hne
    · show (shepherd_emits sig b s).jobs.getD a PrintJob.new = _
      rw [h1]; rfl
  | sliceStarted => exact ⟨ha, hne, rfl⟩
  | sliceComplete b => cases b <;> exact ⟨ha, hne, rfl⟩
  | renderStarted => exact ⟨ha, hne, rfl⟩
  | renderComplete b =>
    cases b
    · exact ⟨ha, hne, rfl⟩
    · simp only [step, prepareTab_renderComplete]
      split_ifs <;> exact ⟨ha, hne, rfl⟩
  | calibrationStarted => exact ⟨ha, hne, rfl⟩
  | calibrationComplete b => exact ⟨ha, hne, rfl⟩
  | adjustBedHeight h => exact ⟨ha, hne, rfl⟩
  | retractBuildPlatform => exact ⟨ha, hne, rfl⟩
  | extendBuildPlatform => exact ⟨ha, hne, rfl⟩
  | moveBuildPlatformUp => exact ⟨ha, hne, rfl⟩
  | moveBuildPlatformDown => exact ⟨ha, hne, rfl⟩
  | stopButtonClicked =>
    simp only [step, statusTab_stopButtonClicked]
    split <;> exact ⟨ha, hne, rfl⟩
  | printComplete =>
    simp only [step, statusTab_cleanUpAfterPrint]
    split <;> exact ⟨ha, hne, rfl⟩
  | closeRequested =>
    simp only [step, close, closeEvent]
    split <;> exact ⟨ha, hne, rfl⟩
  | signalReceived d n =>
    simp only [step, signalHandler_signalReceived, close, closeEvent]
    split_ifs <;> first | exact ⟨ha, hne, rfl⟩ | (split <;> exact ⟨ha, hne, rfl⟩)

/-- A sequence of steps keeps such a record as well. -/
theorem run_frames_record (a : Nat) (evs : List Event) (s : Window)
    (ha : a < s.jobs.length) (hne : s.printJob ≠ a) :
    (run s evs).deref a = s.deref a := by
  induction evs generalizing s with
  | nil => rfl
  | cons e es ih =>
    obtain ⟨h1, h2, h3⟩ := step_frames_record a s e ha hne
    show (run (step s e) es).deref a = s.deref a
    rw [ih (step s e) h1 h2, h3]

/-- C7: at print start the Job Executor is handed the live record itself, so
the record it holds has the fields the live record had at that moment; the
handler leaves that record as it was, and so does every later sequence of
events of the orchestrator, among them every write to the new live record by a
collaborator and every later model selection. -/
theorem executor_record_unaffected_by_later_events (s : Window) (hv : s.valid)
    (later : List Event) :
    issued printTab_printButtonClicked s =
      [Effect.printManager_print s.printManagersMade s.printJob,
        Effect.printJobChanged (printTab_printButtonClicked s).printJob] ∧
    (printTab_printButtonClicked s).deref s.printJob = s.liveJob ∧
    (run (printTab_printButtonClicked s) later).deref s.printJob = s.liveJob := by
  unfold Window.valid at hv
  have h0 : (printTab_printButtonClicked s).deref s.printJob = s.liveJob := by
    show (printTab_printButtonClicked s).jobs.getD s.printJob PrintJob.new =
      s.jobs.getD s.printJob PrintJob.new
    rw [printButtonClicked_jobs, getD_set_other _ _ _ _ _ (by omega),
      getD_append_valid _ _ _ _ hv]
  refine ⟨?_, h0, ?_⟩
  · simp [issued, printTab_printButtonClicked, Window.emit]
  · rw [run_frames_record s.printJob later (printTab_printButtonClicked s) ?_ ?_, h0]
    · rw [printButtonClicked_jobs]; simp; omega
    · rw [printButtonClicked_printJob]; omega

/-- C7 on the scenario: layer count 42 and exposure time 8 at print start;
afterwards the layer count of the new live record is set to 10 and a model is
selected; the record handed to the Job Executor (address 0) still reads 42 and
8, while the live record reads 10. -/
theorem executor_record_unaffected_by_later_events_witness :
    (run Window.init [Event.liveJobUpdated (JobUpdate.layerCount 42),
      Event.liveJobUpdated (JobUpdate.exposureTime 8)]).valid ∧
    (run (printTab_printButtonClicked (run Window.init
        [Event.liveJobUpdated (JobUpdate.layerCount 42),
          Event.liveJobUpdated (JobUpdate.exposureTime 8)]))
      [Event.liveJobUpdated (JobUpdate.layerCount 10),
        Event.modelSelected true "vase.stl"]).deref
      (run Window.init [Event.liveJobUpdated (JobUpdate.layerCount 42),
        Event.liveJobUpdated (JobUpdate.exposureTime 8)]).printJob =
      (run Window.init [Event.liveJobUpdated (JobUpdate.layerCount 42),
        Event.liveJobUpdated (JobUpdate.exposureTime 8)]).liveJob ∧
    (run Window.init [Event.liveJobUpdated (JobUpdate.layerCount 42),
      Event.liveJobUpdated (JobUpdate.exposureTime 8)]).liveJob =
      { PrintJob.new with layerCount := 42, exposureTime := 8 } ∧
    (run (printTab_printButtonClicked (run Window.init
        [Event.liveJobUpdated (JobUpdate.layerCount 42),
          Event.liveJobUpdated (JobUpdate.exposureTime 8)]))
      [Event.liveJobUpdated (JobUpdate.layerCount 10),
        Event.modelSelected true "vase.stl"]).liveJob.layerCount = 10 :=
  ⟨by decide,
    (executor_record_unaffected_by_later_events
      (run Window.init [Event.liveJobUpdated (JobUpdate.layerCount 42),
        Event.liveJobUpdated (JobUpdate.exposureTime 8)]) (by decide)
      [Event.liveJobUpdated (JobUpdate.layerCount 10),
        Event.modelSelected true "vase.stl"]).2.2,
    by decide, by decide⟩

/-! ## Enablement of the Print start-action (C2) -/

/-- C2 as stated fails in both directions, on histories of connected events
only. After a successful render, "slice started" disables the action although
the last terminal event succeeded and no print is in flight; a render failure
after a successful render leaves it enabled although the last terminal event
failed; a successful render while a print is in flight enables it; and after
print start and print complete it stays disabled although the last terminal
event succeeded and the Job Executor has been released. -/
theorem printButton_differs_from_claimed :
    ((runStage Window.init
        [StageEvent.renderComplete true, StageEvent.sliceStarted]).printButtonEnabled = false ∧
      claimedPrintEnabled [StageEvent.renderComplete true, StageEvent.sliceStarted] = true) ∧
    ((runStage Window.init [StageEvent.renderComplete true,
        StageEvent.renderComplete false]).printButtonEnabled = true ∧
      claimedPrintEnabled
        [StageEvent.renderComplete true, StageEvent.renderComplete false] = false) ∧
    ((runStage Window.init [StageEvent.renderComplete true, StageEvent.printStart,
        StageEvent.sliceStarted, StageEvent.renderComplete true]).printButtonEnabled = true ∧
      (runStage Window.init [StageEvent.renderComplete true, StageEvent.printStart,
        StageEvent.sliceStarted, StageEvent.renderComplete true]).printManager = some 0 ∧
      claimedPrintEnabled [StageEvent.renderComplete true, StageEvent.printStart,
        StageEvent.sliceStarted, StageEvent.renderComplete true] = false) ∧
    ((runStage Window.init [StageEvent.renderComplete true, StageEvent.printStart,
        StageEvent.printComplete]).printButtonEnabled = false ∧
      claimedPrintEnabled [StageEvent.renderComplete true, StageEvent.printStart,
        StageEvent.printComplete] = true) := by
  decide

/-- One stage event sets the print button to what it writes, or leaves it. -/
theorem stageStep_printButton (s : Window) (e : StageEvent) :
    (stageStep s e).printButtonEnabled = e.printButtonWrite.getD s.printButtonEnabled := by
  cases e with
  | renderComplete b =>
    cases b
    · rfl
    · simp only [stageStep, prepareTab_renderComplete, Bool.not_true, Bool.false_eq_true,
        if_false]
      split_ifs <;> rfl
  | printComplete =>
    simp only [stageStep, statusTab_cleanUpAfterPrint]
    split <;> rfl
  | _ => rfl

/-- After any history the print button holds the most recent write, or its
starting value when nothing was written. -/
theorem runStage_printButton (evs : List StageEvent) (s : Window) :
    (runStage s evs).printButtonEnabled = (lastPrintButtonWrite evs).getD s.printButtonEnabled := by
  induction evs generalizing s with
  | nil => rfl
  | cons e es ih =>
    show (runStage (stageStep s e) es).printButtonEnabled = _
    rw [ih (stageStep s e), stageStep_printButton]
    unfold lastPrintButtonWrite
    rw [List.reverse_cons, List.findSome?_append]
    cases List.findSome? StageEvent.printButtonWrite es.reverse <;>
      cases h : e.printButtonWrite <;> simp [List.findSome?, h]

/-- C2, amended: after every sequence of the stage events that the constructor
connects (slice started, render complete, print start, print complete) applied
to the initial state, the Print start-action is enabled if and only if the
most recent event among those that write it (slice started, render complete
with success, print start) was a render complete with success; render complete
with failure and print complete write nothing, and whether a print is in
flight does not enter. From an arbitrary state the action holds the most
recent write, or its starting value when there is none. -/
theorem printButton_enabled_iff_last_write_enables (evs : List StageEvent) (s : Window) :
    ((runStage Window.init evs).printButtonEnabled = true ↔
      lastPrintButtonWrite evs = some true) ∧
    (runStage s evs).printButtonEnabled =
      (lastPrintButtonWrite evs).getD s.printButtonEnabled ∧
    StageEvent.printButtonWrite StageEvent.sliceStarted = some false ∧
    StageEvent.printButtonWrite (StageEvent.renderComplete true) = some true ∧
    StageEvent.printButtonWrite (StageEvent.renderComplete false) = none ∧
    StageEvent.printButtonWrite StageEvent.printStart = some false ∧
    StageEvent.printButtonWrite StageEvent.printComplete = none := by
  refine ⟨?_, runStage_printButton evs s, rfl, rfl, rfl, rfl, rfl⟩
  rw [runStage_printButton evs Window.init]
  cases lastPrintButtonWrite evs <;> simp [Window.init]

/-! ## Subscriptions to completion notifications (C3) -/

/-- The three operations that use `moveTo` subscribe once on request and their
completion handler removes that subscription, for both outcomes. -/
theorem moveTo_subscription_removed (success : Bool) (h : ℚ) (s : Window)
    (h1 : (ShepherdSignal.action_moveToComplete, Slot.shepherd_adjustBedHeightMoveToComplete)
      ∉ s.connections)
    (h2 : (ShepherdSignal.action_moveToComplete, Slot.shepherd_retractBuildPlatformMoveToComplete)
      ∉ s.connections)
    (h3 : (ShepherdSignal.action_moveToComplete, Slot.shepherd_extendBuildPlatformMoveToComplete)
      ∉ s.connections) :
    (shepherd_adjustBedHeightMoveToComplete success
      (printTab_adjustBedHeight h s)).connections = s.connections ∧
    (shepherd_retractBuildPlatformMoveToComplete success
      (printTab_retractBuildPlatform s)).connections = s.connections ∧
    (shepherd_extendBuildPlatformMoveToComplete success
      (printTab_extendBuildPlatform s)).connections = s.connections := by
  refine ⟨?_, ?_, ?_⟩
  · cases success <;>
      simp only [shepherd_adjustBedHeightMoveToComplete, printTab_adjustBedHeight, Window.emit,
        Window.connect, Window.disconnect] <;>
      simp [List.filter_eq_self] <;>
      exact fun a b hab ha hb => h1 (ha ▸ hb ▸ hab)
  · cases success <;>
      simp only [shepherd_retractBuildPlatformMoveToComplete, printTab_retractBuildPlatform,
        Window.emit, Window.connect, Window.disconnect] <;>
      simp [List.filter_eq_self] <;>
      exact fun a b hab ha hb => h2 (ha ▸ hb ▸ hab)
  · cases success <;>
      simp only [shepherd_extendBuildPlatformMoveToComplete, printTab_extendBuildPlatform,
        Window.emit, Window.connect, Window.disconnect] <;>
      simp [List.filter_eq_self] <;>
      exact fun a b hab ha hb => h3 (ha ▸ hb ▸ hab)

/-- C3 fails for the two operations that use `move`. From the initial state, a
move-up request followed by its completion leaves the subscription of the
move-up handler to `action_moveComplete` in place; after a second move-up
request, issued when the first has completed, two such subscriptions exist and
the completion runs the handler twice. The same holds for move-down, and a
move-down completing after a move-up has completed runs both handlers. -/
theorem move_subscription_survives_completion :
    (run Window.init [Event.moveBuildPlatformUp,
      Event.shepherdSignal ShepherdSignal.action_moveComplete true]).connections =
      [(ShepherdSignal.action_moveComplete, Slot.shepherd_moveBuildPlatformUpMoveComplete)] ∧
    (run Window.init [Event.moveBuildPlatformUp,
      Event.shepherdSignal ShepherdSignal.action_moveComplete true,
      Event.moveBuildPlatformUp]).connections =
      [(ShepherdSignal.action_moveComplete, Slot.shepherd_moveBuildPlatformUpMoveComplete),
        (ShepherdSignal.action_moveComplete, Slot.shepherd_moveBuildPlatformUpMoveComplete)] ∧
    issued (shepherd_emits ShepherdSignal.action_moveComplete true)
      (run Window.init [Event.moveBuildPlatformUp,
        Event.shepherdSignal ShepherdSignal.action_moveComplete true,
        Event.moveBuildPlatformUp]) =
      [Effect.printTab_moveBuildPlatformUpComplete true,
        Effect.printTab_moveBuildPlatformUpComplete true] ∧
    (run Window.init [Event.moveBuildPlatformDown,
      Event.shepherdSignal ShepherdSignal.action_moveComplete false]).connections =
      [(ShepherdSignal.action_moveComplete, Slot.shepherd_moveBuildPlatformDownMoveComplete)] ∧
    issued (shepherd_emits ShepherdSignal.action_moveComplete true)
      (run Window.init [Event.moveBuildPlatformUp,
        Event.shepherdSignal ShepherdSignal.action_moveComplete true,
        Event.moveBuildPlatformDown]) =
      [Effect.printTab_moveBuildPlatformUpComplete true,
        Effect.printTab_moveBuildPlatformUpComplete true] := by
  refine ⟨?_, ?_, ?_, ?_, ?_⟩ <;> rfl

end Fstl
